import Mathlib

deriving instance DecidableEq for Except

/-!
Verification of the Flash-Loan-Arbitrage repository.

`Engine` embeds the Solidity contract `BaseFlashLoanArbitrage`
(src/unnamed/part_000, lines 103-370): balances and approvals are explicit
association lists, external venue calls (Uniswap router and quoter) are
oracles supplied as parameters, and machine integers are `Nat` (amounts can
never exceed 2^256 in the scenarios proved, so no modular wraparound is
modelled).  `Server` embeds the off-chain controller (src/server/index.js):
the opportunity scanner's retention filter over exact rationals, the
control-loop decision logic, and the run-flag state of the bot.
-/

namespace Engine

abbrev Addr := Nat

/-- Balance lookup in an association list of token to amount
(`IERC20(token).balanceOf(address(this))`); absent tokens have balance 0. -/
def getBal (bs : List (Addr × Nat)) (t : Addr) : Nat :=
  match bs.lookup t with
  | some v => v
  | none => 0

/-- Overwrite the balance of token `t` with `v`. -/
def setBal (bs : List (Addr × Nat)) (t : Addr) (v : Nat) : List (Addr × Nat) :=
  (t, v) :: bs.filter (fun p => p.1 ≠ t)

/-- Credit `a` units of token `t`. -/
def addBal (bs : List (Addr × Nat)) (t : Addr) (a : Nat) : List (Addr × Nat) :=
  setBal bs t (getBal bs t + a)

/-- Debit `a` units of token `t` (callers establish sufficiency). -/
def subBal (bs : List (Addr × Nat)) (t : Addr) (a : Nat) : List (Addr × Nat) :=
  setBal bs t (getBal bs t - a)

/-- Allowance lookup keyed by (token, spender). -/
def getAppr (ap : List ((Addr × Addr) × Nat)) (t spender : Addr) : Nat :=
  match ap.lookup (t, spender) with
  | some v => v
  | none => 0

/-- `IERC20(token).approve(spender, v)`: overwrite the allowance. -/
def setAppr (ap : List ((Addr × Addr) × Nat)) (t spender : Addr) (v : Nat) :
    List ((Addr × Addr) × Nat) :=
  ((t, spender), v) :: ap.filter (fun p => p.1 ≠ (t, spender))

/-- The `ArbitrageParams` struct (part_000 lines 136-143). -/
structure ArbitrageParams where
  tokenIn : Addr
  tokenOut : Addr
  amountIn : Nat
  fee1 : Nat
  fee2 : Nat
  useAerodrome : Bool
deriving DecidableEq, Repr

/-- Revert reasons of the contract's `require` statements plus the guard and
ledger failure kinds named by the spec's error taxonomy (§7). -/
inductive EngineError where
  | AccessDenied
  | ReentrancyBlocked
  | GasPriceExceeded
  | InvalidCaller
  | InvalidInitiator
  | InsufficientRepayment
  | UnprofitableTrade
  | SwapFailed
  | DivisionByZero
deriving DecidableEq, Repr

/-- Contract storage: token balances held by the contract, ERC20 allowances it
has granted, the OpenZeppelin ReentrancyGuard status flag, and the three
owner-mutable settings with their declared initial values
(part_000 lines 121-124: 50 basis points, 50 gwei, 300). -/
structure EngineState where
  balances : List (Addr × Nat)
  approvals : List ((Addr × Addr) × Nat)
  entered : Bool
  minProfitBasisPoints : Nat := 50
  maxGasPrice : Nat := 50000000000
  maxSlippage : Nat := 300
deriving DecidableEq, Repr

/-- Freshly deployed contract: no balances, no approvals, guard clear,
settings at their declared initial values. -/
def initEngineState : EngineState :=
  { balances := [], approvals := [], entered := false }

/-- External venue calls: the Uniswap V3 router's `exactInputSingle` and the
quoter's `quoteExactInputSingle`, abstracted as oracles.  Arguments follow the
source call order (tokenIn, tokenOut, fee, amountIn); `none` models the
external call reverting or throwing. -/
structure SwapOracle where
  exactInputSingle : Addr → Addr → Nat → Nat → Option Nat
  quoteExactInputSingle : Addr → Addr → Nat → Nat → Option Nat

/-- `_swapUniswapV3` (part_000 lines 252-272): approve the router for
`amountIn`, then call `exactInputSingle`; the router pulls `amountIn` of
`tokenIn` (reverting when the balance is insufficient) and delivers the quoted
`amountOut` of `tokenOut`. -/
def swapUniswapV3 (ora : SwapOracle) (router : Addr) (st : EngineState)
    (tokenIn tokenOut : Addr) (amountIn fee : Nat) :
    Except EngineError (EngineState × Nat) :=
  match ora.exactInputSingle tokenIn tokenOut fee amountIn with
  | none => .error .SwapFailed
  | some amountOut =>
    if amountIn ≤ getBal st.balances tokenIn then
      .ok ({ st with
              approvals := setAppr st.approvals tokenIn router amountIn,
              balances := addBal (subBal st.balances tokenIn amountIn) tokenOut amountOut },
           amountOut)
    else .error .SwapFailed

/-- `_swapAerodrome` (part_000 lines 277-285): a pure placeholder that moves no
tokens and returns its input amount unchanged. -/
def swapAerodrome (amountIn : Nat) : Nat :=
  amountIn

/-- `_executeArbitrage` (part_000 lines 216-247): record the starting balance
of `tokenIn`, swap leg 1 (`tokenIn` to `tokenOut` for the full loan `amount`
at `fee1`), swap leg 2 back (either the Aerodrome placeholder or Uniswap at
`fee2`), then report `profit = endBalance - startBalance` when positive and 0
otherwise. -/
def executeArbitrage (ora : SwapOracle) (router : Addr) (st : EngineState)
    (p : ArbitrageParams) (amount : Nat) :
    Except EngineError (EngineState × Nat) :=
  match swapUniswapV3 ora router st p.tokenIn p.tokenOut amount p.fee1 with
  | .error e => .error e
  | .ok (st1, firstSwapOut) =>
    match (if p.useAerodrome then Except.ok (st1, swapAerodrome firstSwapOut)
           else swapUniswapV3 ora router st1 p.tokenOut p.tokenIn firstSwapOut p.fee2) with
    | .error e => .error e
    | .ok (st2, _secondSwapOut) =>
      .ok (st2,
        if getBal st.balances p.tokenIn < getBal st2.balances p.tokenIn
        then getBal st2.balances p.tokenIn - getBal st.balances p.tokenIn
        else 0)

/-- `executeOperation` (part_000 lines 175-211), the loan callback
(`onLoanReceived` in the spec): require the caller to be the pool and the
initiator to be the contract itself, run the arbitrage, then require the
post-trade balance of `asset` to cover `amount + premium`, then require
`profit > 0`, and finally approve the pool for the repayment.  Returns the
new state and the profit recorded by the `ArbitrageExecuted` event. -/
def executeOperation (ora : SwapOracle) (router pool thisAddr : Addr)
    (st : EngineState) (msgSender asset : Addr) (amount premium : Nat)
    (initiator : Addr) (p : ArbitrageParams) :
    Except EngineError (EngineState × Nat) :=
  if msgSender = pool then
    if initiator = thisAddr then
      match executeArbitrage ora router st p amount with
      | .error e => .error e
      | .ok (st1, profit) =>
        if amount + premium ≤ getBal st1.balances asset then
          if 0 < profit then
            .ok ({ st1 with
                    approvals := setAppr st1.approvals asset pool (amount + premium) },
                 profit)
          else .error .UnprofitableTrade
        else .error .InsufficientRepayment
    else .error .InvalidInitiator
  else .error .InvalidCaller

/-- The contract state at the start of the swap phase: the reentrancy guard
set by `executeFlashLoanArbitrage`, and the flash-loaned `amount` of `asset`
credited by the pool. -/
def preSwap (st : EngineState) (asset : Addr) (amount : Nat) : EngineState :=
  { st with entered := true, balances := addBal st.balances asset amount }

/-- Modelled from the spec: the lending facility (the Aave pool) and the
ledger live outside src/. Per §4.1 and §5 `flashLoanSimple` transfers the
loan to the contract, synchronously invokes its `executeOperation` callback
with the contract itself as initiator, and then withdraws `amount + premium`
through the approval the callback granted; a callback failure fails the whole
unit. -/
def flashLoanSimple (ora : SwapOracle) (router pool thisAddr : Addr)
    (st : EngineState) (asset : Addr) (amount premium : Nat)
    (p : ArbitrageParams) : Except EngineError (EngineState × Nat) :=
  match executeOperation ora router pool thisAddr
          { st with balances := addBal st.balances asset amount }
          pool asset amount premium thisAddr p with
  | .error e => .error e
  | .ok (st2, profit) =>
    if amount + premium ≤ getAppr st2.approvals asset pool ∧
       amount + premium ≤ getBal st2.balances asset then
      .ok ({ st2 with balances := subBal st2.balances asset (amount + premium) }, profit)
    else .error .InsufficientRepayment

/-- `executeFlashLoanArbitrage` (part_000 lines 155-170), the spec's
`requestExecution`: `onlyOwner`, then the ReentrancyGuard (`nonReentrant`),
then `require(tx.gasprice <= maxGasPrice)`, then the flash-loan request; the
guard is cleared when the call completes. -/
def executeFlashLoanArbitrage (ora : SwapOracle) (router pool thisAddr owner : Addr)
    (st : EngineState) (msgSender : Addr) (gasPrice : Nat) (asset : Addr)
    (amount premium : Nat) (p : ArbitrageParams) :
    Except EngineError (EngineState × Nat) :=
  if msgSender = owner then
    if st.entered then .error .ReentrancyBlocked
    else
      if gasPrice ≤ st.maxGasPrice then
        match flashLoanSimple ora router pool thisAddr { st with entered := true }
                asset amount premium p with
        | .error e => .error e
        | .ok (st', profit) => .ok ({ st' with entered := false }, profit)
      else .error .GasPriceExceeded
  else .error .AccessDenied

/-- Modelled from the spec: the ledger's atomic transaction unit (§5) — a
failing attempt reverts every effect, so the observable post-state of a failed
attempt is the untouched pre-state. -/
def attempt (ora : SwapOracle) (router pool thisAddr owner : Addr)
    (st : EngineState) (msgSender : Addr) (gasPrice : Nat) (asset : Addr)
    (amount premium : Nat) (p : ArbitrageParams) :
    EngineState × Except EngineError Nat :=
  match executeFlashLoanArbitrage ora router pool thisAddr owner st msgSender
          gasPrice asset amount premium p with
  | .ok (st', profit) => (st', .ok profit)
  | .error e => (st, .error e)

/-- The profit `_executeArbitrage` reports for a given starting state
(0 when the run reverts; observer used to state the atomicity theorem). -/
def arbProfit (ora : SwapOracle) (router : Addr) (st : EngineState)
    (p : ArbitrageParams) (amount : Nat) : Nat :=
  match executeArbitrage ora router st p amount with
  | .ok (_, profit) => profit
  | .error _ => 0

/-- The balance of token `t` after `_executeArbitrage`'s two swaps
(the starting balance when the run reverts). -/
def arbEndBal (ora : SwapOracle) (router : Addr) (st : EngineState)
    (p : ArbitrageParams) (amount : Nat) (t : Addr) : Nat :=
  match executeArbitrage ora router st p amount with
  | .ok (st2, _) => getBal st2.balances t
  | .error _ => getBal st.balances t

/-- Whether an engine call succeeded. -/
def resultOk {α : Type} : Except EngineError α → Bool
  | .ok _ => true
  | .error _ => false

/-- `_getUniswapQuote` (part_000 lines 320-331): `try` the quoter and map any
failure to a plain zero quote (`catch { return 0; }`). -/
def getUniswapQuote (ora : SwapOracle) (tokenIn tokenOut : Addr)
    (amountIn fee : Nat) : Nat :=
  match ora.quoteExactInputSingle tokenIn tokenOut fee amountIn with
  | some quote => quote
  | none => 0

/-- `calculateArbitrageOpportunity` (part_000 lines 290-315), the spec's
`quoteOpportunity`: quote A to B for `testAmount`, quote B to A for the
result, and when the round trip exceeds `testAmount` compare the profit in
basis points against `minProfitBasisPoints`; otherwise the named returns keep
their defaults `(false, 0, 0)`.  Division by a zero `testAmount` is a
Solidity 0.8 panic, an abort of the call. -/
def calculateArbitrageOpportunity (ora : SwapOracle) (st : EngineState)
    (tokenA tokenB : Addr) (fee1 fee2 : Nat) (testAmount : Nat) :
    Except EngineError (Bool × Nat × Nat) :=
  let quote1 := getUniswapQuote ora tokenA tokenB testAmount fee1
  let quote2 := getUniswapQuote ora tokenB tokenA quote1 fee2
  if testAmount < quote2 then
    if testAmount = 0 then .error .DivisionByZero
    else
      let profit := quote2 - testAmount
      let profitBasisPoints := profit * 10000 / testAmount
      .ok (decide (st.minProfitBasisPoints ≤ profitBasisPoints), profit, testAmount)
  else
    .ok (false, 0, 0)

/-- `updateSettings` (part_000 lines 336-344): owner-only, unconditionally
overwrites the three thresholds. -/
def updateSettings (owner : Addr) (msgSender : Addr) (st : EngineState)
    (minBp maxGas maxSlip : Nat) : Except EngineError EngineState :=
  if msgSender = owner then
    .ok { st with minProfitBasisPoints := minBp, maxGasPrice := maxGas,
                  maxSlippage := maxSlip }
  else .error .AccessDenied

/-- The spec's profitability formula, transcribed from its words (§4.1):
`profitable = ((quoteBack − testAmount) × 10000 / testAmount ≥
minProfitBasisPoints)`, read over the integers. -/
def specProfitable (quoteBack testAmount minBp : Nat) : Bool :=
  decide ((minBp : Int) ≤ ((quoteBack : Int) - (testAmount : Int)) * 10000 / (testAmount : Int))

end Engine

namespace Server

/-- `Math.abs` over exact rationals. -/
def absQ (x : ℚ) : ℚ :=
  if x < 0 then -x else x

/-- The scanner's retention lower bound on `priceDiffPercent`
(index.js line 105: `priceDiffPercent > 1.0`). -/
def scannerLowerBoundPercent : ℚ := 1

/-- The scanner's retention upper bound on `priceDiffPercent`
(index.js line 105: `priceDiffPercent < 10`). -/
def scannerUpperBoundPercent : ℚ := 10

/-- The scanner's liquidity floor in USD (index.js line 104:
`const minLiquidity = 100`). -/
def minLiquidity : ℚ := 100

/-- index.js lines 99-101:
`priceDiffPercent = |price1 - price2| / ((price1 + price2) / 2) * 100`. -/
def priceDiffPercent (p1 p2 : ℚ) : ℚ :=
  absQ (p1 - p2) / ((p1 + p2) / 2) * 100

/-- index.js line 110: `Math.abs(Math.log10(price1/price2)) < 2`.  For
positive prices this is exactly `1/100 < price1/price2 < 100`, i.e. each
price is below 100 times the other (log10 is strictly monotone; the check is
embedded as the equivalent rational inequality). -/
def ratioBounded (p1 p2 : ℚ) : Bool :=
  decide (p1 < 100 * p2) && decide (p2 < 100 * p1)

/-- index.js lines 106-107: `pair.liquidity?.usd > minLiquidity`; a missing
liquidity field (`none`) compares as false. -/
def liqAbove : Option ℚ → Bool
  | some l => decide (minLiquidity < l)
  | none => false

/-- The retention conditional (index.js lines 105-110): the price-delta
window, both liquidity floors, the tighter per-price magnitude window, and
the log-ratio bound. -/
def retainCondition (p1 p2 : ℚ) (l1 l2 : Option ℚ) : Bool :=
  decide (scannerLowerBoundPercent < priceDiffPercent p1 p2) &&
  decide (priceDiffPercent p1 p2 < scannerUpperBoundPercent) &&
  liqAbove l1 && liqAbove l2 &&
  decide (1 / 10000 < p1) && decide (1 / 10000 < p2) &&
  decide (p1 < 100000) && decide (p2 < 100000) &&
  ratioBounded p1 p2

/-- Whether a candidate pair of quotes is pushed onto `opportunities`
(index.js lines 88-125): `parseFloat` failure (`none`) or the skip block of
lines 93-97 discards the candidate, otherwise the retention conditional
decides. -/
def considerPair : Option ℚ → Option ℚ → Option ℚ → Option ℚ → Bool
  | some p1, some p2, l1, l2 =>
    if decide (0 < p1) && decide (0 < p2) &&
       decide (p1 ≤ 1000000) && decide (p2 ≤ 1000000) &&
       decide (1 / 1000000 ≤ p1) && decide (1 / 1000000 ≤ p2) then
      retainCondition p1 p2 l1 l2
    else false
  | _, _, _, _ => false

/-- All price-validity checks the scanner applies to a candidate, pooled
(the skip block of lines 93-97 together with the per-price and ratio checks
of lines 108-110); the first four conjuncts subsume the skip block's wider
magnitude band. -/
def priceValid (p1 p2 : ℚ) : Bool :=
  decide (1 / 10000 < p1) && decide (1 / 10000 < p2) &&
  decide (p1 < 100000) && decide (p2 < 100000) &&
  ratioBounded p1 p2

/-- The fields of a pushed opportunity that the control loop reads
(index.js lines 111-124; prices, volumes and the timestamp are carried along
but never read by the loop and are omitted). -/
structure Opportunity where
  tokenIn : Nat
  tokenOut : Nat
  dex1 : Nat
  dex2 : Nat
  priceDiff : ℚ
  liquidity1 : ℚ
  liquidity2 : ℚ
deriving DecidableEq, Repr

/-- The execution threshold of the control loop (index.js line 268:
`bestOpportunity.priceDiff > 1.0`). -/
def execThresholdPercent : ℚ := 1

/-- The loop's execution decision (index.js lines 262-268): take the first
(top-ranked) opportunity and execute it exactly when its `priceDiff` exceeds
the execution threshold. -/
def shouldExecute (opps : List Opportunity) : Option Opportunity :=
  match opps with
  | [] => none
  | best :: _ => if execThresholdPercent < best.priceDiff then some best else none

/-- What `executeArbitrage` resolves to: the source wraps its whole body in
`try`/`catch` and returns `{success: true, txHash}` or
`{success: false, error}`. -/
inductive ExecOutcome where
  | success (txHash : Nat)
  | failure
deriving DecidableEq, Repr

/-- `executeArbitrage` (index.js lines 154-242): the balance check, parameter
encoding, submission and receipt wait are abstracted as `submit` (`none` is
any thrown error — an engine revert, a transport failure or a timeout); every
failure is caught and returned as a failure outcome, never rethrown. -/
def executeArbitrageCall (submit : Opportunity → Option Nat)
    (opp : Opportunity) : ExecOutcome :=
  match submit opp with
  | some txHash => .success txHash
  | none => .failure

/-- index.js line 291: the fixed wait between scans, 30 seconds. -/
def scanIntervalMs : Nat := 30000

/-- index.js line 295: the wait taken by the loop's `catch` handler when an
exception escapes an iteration body, 60 seconds. -/
def errorCooldownMs : Nat := 60000

/-- One iteration of the monitoring loop's `try` body (index.js lines
257-291): scan (already caught internally, yielding a plain list), execute
the top opportunity when it clears the threshold, and in every case reach the
`setTimeout(30000)` at the end of the body — `executeArbitrageCall` is total,
so a failed submission is an outcome, not an exception, and takes the same
30-second wait.  Returns the submission outcome (when one was attempted) and
the wait before the next scan. -/
def loopIteration (submit : Opportunity → Option Nat)
    (opps : List Opportunity) : Option ExecOutcome × Nat :=
  match shouldExecute opps with
  | some best => (some (executeArbitrageCall submit best), scanIntervalMs)
  | none => (none, scanIntervalMs)

/-- The bot's run state: the `isMonitoring` flag (index.js line 245) and the
number of monitoring-loop instances currently alive (each `while` loop spawned
by `startArbitrageBot` and not yet exited). -/
structure BotState where
  isMonitoring : Bool
  activeLoops : Nat
deriving DecidableEq, Repr

/-- `startArbitrageBot` (index.js lines 247-256): when `isMonitoring` is
already set, log and return with nothing changed; otherwise set the flag and
enter a new monitoring loop. -/
def startArbitrageBot (s : BotState) : BotState :=
  if s.isMonitoring then s
  else { isMonitoring := true, activeLoops := s.activeLoops + 1 }

/-- `stopArbitrageBot` (index.js lines 300-303): clear the flag; running
loops are not torn down here — each exits at its next `while` check. -/
def stopArbitrageBot (s : BotState) : BotState :=
  { s with isMonitoring := false }

/-- A sleeping loop instance waking and evaluating `while (isMonitoring)`
(index.js line 256): it exits when the flag is clear and continues
otherwise. -/
def loopCheck (s : BotState) : BotState :=
  if s.isMonitoring then s else { s with activeLoops := s.activeLoops - 1 }

end Server

namespace Fixtures

/-- A venue oracle under which the round trip is profitable: leg 1 turns the
loaned 100 of token 10 into 200 of token 20, leg 2 turns those into 150 of
token 10. -/
def oraProfitable : Engine.SwapOracle :=
  { exactInputSingle := fun tIn _ _ _ => if tIn = 10 then some 200 else some 150,
    quoteExactInputSingle := fun _ _ _ _ => none }

/-- A venue oracle under which the round trip exactly breaks even: 100 of
token 10 becomes 200 of token 20 and back into precisely 100 of token 10, so
the computed profit is 0. -/
def oraBreakEven : Engine.SwapOracle :=
  { exactInputSingle := fun tIn _ _ _ => if tIn = 10 then some 200 else some 100,
    quoteExactInputSingle := fun _ _ _ _ => none }

/-- Arbitrage parameters: token 10 to token 20 and back on Uniswap. -/
def pW : Engine.ArbitrageParams :=
  ⟨10, 20, 100, 3000, 500, false⟩

/-- A contract already holding 5 of token 10 before any loan. -/
def stHeld : Engine.EngineState :=
  { Engine.initEngineState with balances := [(10, 5)] }

/-- A contract holding exactly the loaned 100 of token 10 (as at the start of
`executeOperation`) and nothing else. -/
def stLoanOnly : Engine.EngineState :=
  { Engine.initEngineState with balances := [(10, 100)] }

/-- A contract holding the loaned 100 of token 10 plus 60 pre-held ones. -/
def stExtra : Engine.EngineState :=
  { Engine.initEngineState with balances := [(10, 160)] }

/-- The state `_executeArbitrage` reaches from `stLoanOnly` under
`oraBreakEven`. -/
def stAfterLoanOnly : Engine.EngineState :=
  ⟨[(10, 100), (20, 0)], [((20, 1), 200), ((10, 1), 100)], false, 50, 50000000000, 300⟩

/-- The state `_executeArbitrage` reaches from `stExtra` under
`oraBreakEven`. -/
def stAfterExtra : Engine.EngineState :=
  ⟨[(10, 160), (20, 0)], [((20, 1), 200), ((10, 1), 100)], false, 50, 50000000000, 300⟩

/-- The state `_executeArbitrage` reaches from
`preSwap initEngineState 10 100` under `oraBreakEven`. -/
def stBreakEvenAfter : Engine.EngineState :=
  ⟨[(10, 100), (20, 0)], [((20, 1), 200), ((10, 1), 100)], true, 50, 50000000000, 300⟩

/-- A contract whose reentrancy guard is currently set and which holds the
loaned 100 of token 10 plus 5 pre-held ones. -/
def stEnteredLoan : Engine.EngineState :=
  ⟨[(10, 105)], [], true, 50, 50000000000, 300⟩

/-- A contract whose reentrancy guard is currently set. -/
def stEntered : Engine.EngineState :=
  ⟨[], [], true, 50, 50000000000, 300⟩

/-- A quoter under which 1000 of token 10 quotes to 1050 of token 20 and any
amount of token 20 quotes back to 1060 of token 10 (the spec's worked
example). -/
def quoterRoundTrip : Engine.SwapOracle :=
  { exactInputSingle := fun _ _ _ _ => none,
    quoteExactInputSingle := fun tIn _ _ _ => if tIn = 10 then some 1050 else some 1060 }

/-- A quoter whose round trip returns exactly the test amount, 1000. -/
def quoterFlat : Engine.SwapOracle :=
  { exactInputSingle := fun _ _ _ _ => none,
    quoteExactInputSingle := fun _ _ _ _ => some 1000 }

/-- The engine state after `updateSettings(0, 0, 0)`. -/
def zeroMinState : Engine.EngineState :=
  { Engine.initEngineState with minProfitBasisPoints := 0, maxGasPrice := 0,
                                maxSlippage := 0 }

/-- A retained opportunity whose price delta is 2 percent. -/
def oppTwo : Server.Opportunity :=
  ⟨0, 0, 0, 0, 2, 101, 101⟩

end Fixtures

/-- C5 (amended): a failing quoter call inside `_getUniswapQuote` is not
propagated — it is mapped to the plain number 0 — and a successful call
returns the quoted value unchanged; the result carries no tag of any kind
(see the counterexample for indistinguishability from a genuine zero
quote). -/
theorem quote_failure_zero_mapping :
    (∀ (ora : Engine.SwapOracle) (tokenIn tokenOut amountIn fee : Nat),
        ora.quoteExactInputSingle tokenIn tokenOut fee amountIn = none →
        Engine.getUniswapQuote ora tokenIn tokenOut amountIn fee = 0) ∧
    (∀ (ora : Engine.SwapOracle) (tokenIn tokenOut amountIn fee q : Nat),
        ora.quoteExactInputSingle tokenIn tokenOut fee amountIn = some q →
        Engine.getUniswapQuote ora tokenIn tokenOut amountIn fee = q) := by
  constructor
  · intro ora tokenIn tokenOut amountIn fee h
    unfold Engine.getUniswapQuote
    rw [h]
  · intro ora tokenIn tokenOut amountIn fee q h
    unfold Engine.getUniswapQuote
    rw [h]

/-- C5 witness: the two halves of `quote_failure_zero_mapping` at concrete
oracles. -/
theorem quote_failure_zero_mapping_witness :
    Engine.getUniswapQuote ⟨fun _ _ _ _ => none, fun _ _ _ _ => none⟩ 1 2 5 3000 = 0 ∧
    Engine.getUniswapQuote ⟨fun _ _ _ _ => none, fun _ _ _ _ => some 7⟩ 1 2 5 3000 = 7 :=
  ⟨quote_failure_zero_mapping.1 ⟨fun _ _ _ _ => none, fun _ _ _ _ => none⟩ 1 2 5 3000 rfl,
   quote_failure_zero_mapping.2 ⟨fun _ _ _ _ => none, fun _ _ _ _ => some 7⟩ 1 2 5 3000 7 rfl⟩

/-- C5 counterexample: the result of a quote whose underlying call failed is
identical to the result of a quote that genuinely returned zero — the value
is an untagged number, so callers cannot distinguish the two, contradicting
the claim that every such result is clearly tagged. -/
theorem quote_failure_untagged_cex :
    Engine.getUniswapQuote ⟨fun _ _ _ _ => none, fun _ _ _ _ => none⟩ 1 2 5 3000
      = Engine.getUniswapQuote ⟨fun _ _ _ _ => none, fun _ _ _ _ => some 0⟩ 1 2 5 3000 :=
  rfl

/-- C10: whenever the round-trip quote is at most `testAmount` — in
particular when a failed first-leg quote is mapped to 0, making the second
leg's input amount 0 — `calculateArbitrageOpportunity` returns
`(false, 0, 0)` normally rather than signalling an error; and a failed
first-leg quote indeed yields 0 as the second leg's input. -/
theorem calc_opportunity_nonpositive_roundtrip :
    (∀ (ora : Engine.SwapOracle) (st : Engine.EngineState)
        (tokenA tokenB fee1 fee2 testAmount : Nat),
        Engine.getUniswapQuote ora tokenB tokenA
            (Engine.getUniswapQuote ora tokenA tokenB testAmount fee1) fee2 ≤ testAmount →
        Engine.calculateArbitrageOpportunity ora st tokenA tokenB fee1 fee2 testAmount
          = Except.ok (false, 0, 0)) ∧
    (∀ (ora : Engine.SwapOracle) (tokenA tokenB fee1 testAmount : Nat),
        ora.quoteExactInputSingle tokenA tokenB fee1 testAmount = none →
        Engine.getUniswapQuote ora tokenA tokenB testAmount fee1 = 0) := by
  constructor
  · intro ora st tokenA tokenB fee1 fee2 testAmount h
    unfold Engine.calculateArbitrageOpportunity
    rw [if_neg (Nat.not_lt.mpr h)]
  · intro ora tokenA tokenB fee1 testAmount h
    unfold Engine.getUniswapQuote
    rw [h]

/-- C10 witness: with a quoter that always fails, the round trip is 0 ≤ 5 and
the call returns `(false, 0, 0)`, and the failed first leg quotes to 0. -/
theorem calc_opportunity_nonpositive_roundtrip_witness :
    Engine.calculateArbitrageOpportunity ⟨fun _ _ _ _ => none, fun _ _ _ _ => none⟩
        Engine.initEngineState 10 20 3000 500 5 = Except.ok (false, 0, 0) ∧
    Engine.getUniswapQuote ⟨fun _ _ _ _ => none, fun _ _ _ _ => none⟩ 10 20 5 3000 = 0 :=
  ⟨calc_opportunity_nonpositive_roundtrip.1 ⟨fun _ _ _ _ => none, fun _ _ _ _ => none⟩
      Engine.initEngineState 10 20 3000 500 5 (by decide),
   calc_opportunity_nonpositive_roundtrip.2 ⟨fun _ _ _ _ => none, fun _ _ _ _ => none⟩
      10 20 3000 5 rfl⟩

/-- C9 (amended): starting the bot is a no-op exactly when the
`isMonitoring` flag is set — the state is unchanged and no loop is launched;
the guard tests the flag, not whether a loop instance is still alive. -/
theorem start_idempotent_when_flag_set (s : Server.BotState)
    (h : s.isMonitoring = true) :
    Server.startArbitrageBot s = s := by
  unfold Server.startArbitrageBot
  rw [h]
  simp

/-- C9 witness: starting again in the running state `⟨true, 1⟩` changes
nothing. -/
theorem start_idempotent_when_flag_set_witness :
    Server.BotState.isMonitoring ⟨true, 1⟩ = true ∧
    Server.startArbitrageBot ⟨true, 1⟩ = ⟨true, 1⟩ :=
  ⟨rfl, start_idempotent_when_flag_set ⟨true, 1⟩ rfl⟩

/-- C9 counterexample: start the bot, stop it, and start it again before the
first loop's next `while` check.  At the moment of the second start a
monitoring loop is still alive (`activeLoops = 1`), yet the call does not
return immediately: it launches a second loop, reaching `activeLoops = 2` —
so it is not the case that a start during a live loop never launches a
second one, and two monitoring loops can exist at the same time. -/
theorem stop_start_two_loops_cex :
    (Server.stopArbitrageBot (Server.startArbitrageBot ⟨false, 0⟩)).activeLoops = 1 ∧
    Server.startArbitrageBot (Server.stopArbitrageBot (Server.startArbitrageBot ⟨false, 0⟩))
      = ⟨true, 2⟩ := by
  constructor <;> rfl

/-- C7 (amended): the control loop's execution threshold is the same bound
as the scanner's retention lower bound (both are the literal 1.0 percent),
not a strictly greater one; consequently every top-ranked opportunity that
satisfies the scanner's retention bound is executed. -/
theorem execution_threshold_equals_retention :
    Server.execThresholdPercent = Server.scannerLowerBoundPercent ∧
    ∀ (opp : Server.Opportunity) (rest : List Server.Opportunity),
      Server.scannerLowerBoundPercent < opp.priceDiff →
      Server.shouldExecute (opp :: rest) = some opp := by
  refine ⟨rfl, ?_⟩
  intro opp rest h
  have h' : Server.execThresholdPercent < opp.priceDiff := h
  simp only [Server.shouldExecute]
  rw [if_pos h']

/-- C7 witness: a top opportunity with a 2 percent delta satisfies the
retention bound and is executed. -/
theorem execution_threshold_equals_retention_witness :
    Server.scannerLowerBoundPercent < Fixtures.oppTwo.priceDiff ∧
    Server.shouldExecute [Fixtures.oppTwo] = some Fixtures.oppTwo :=
  ⟨by decide, execution_threshold_equals_retention.2 Fixtures.oppTwo [] (by decide)⟩

/-- C7 counterexample: the execution threshold is not strictly greater than
the scanner's retention lower bound — they are equal — and a top result with
delta 2, which merely satisfies the retention bound, is executed. -/
theorem execution_threshold_not_stricter_cex :
    ¬ Server.scannerLowerBoundPercent < Server.execThresholdPercent ∧
    Server.shouldExecute [Fixtures.oppTwo] = some Fixtures.oppTwo := by
  constructor
  · exact lt_irrefl 1
  · simp only [Server.shouldExecute]
    rw [if_pos (show Server.execThresholdPercent < Fixtures.oppTwo.priceDiff by decide)]

/-- C8 (amended): every iteration of the monitoring loop's body — including
one whose execution submission fails, since `executeArbitrage` catches its
own errors and returns a failure outcome — ends in the normal 30-second scan
wait; the 60-second cooldown of the loop's `catch` handler is strictly
longer but is taken only when an exception escapes the body, which a
submission failure never does. -/
theorem iteration_wait_interval :
    (∀ (submit : Server.Opportunity → Option Nat) (opps : List Server.Opportunity),
        (Server.loopIteration submit opps).2 = Server.scanIntervalMs) ∧
    Server.scanIntervalMs < Server.errorCooldownMs := by
  constructor
  · intro submit opps
    unfold Server.loopIteration
    cases Server.shouldExecute opps <;> rfl
  · decide

/-- C8 counterexample: a failed submission (the transport rejects the
transaction: `submit = fun _ => none`) produces a failure outcome and the
loop then waits the normal 30-second scan interval — not an interval longer
than it, contradicting the claim that every submission failure leads to the
longer cooldown wait. -/
theorem failed_submission_normal_wait_cex :
    Server.loopIteration (fun _ => none) [Fixtures.oppTwo]
      = (some Server.ExecOutcome.failure, Server.scanIntervalMs) ∧
    Server.scanIntervalMs ≠ Server.errorCooldownMs := by
  constructor
  · simp only [Server.loopIteration, Server.shouldExecute]
    rw [if_pos (show Server.execThresholdPercent < Fixtures.oppTwo.priceDiff by decide)]
    rfl
  · decide

/-- `_swapUniswapV3` can only fail with `SwapFailed`: its failure branches
are the external call reverting and the token pull failing. -/
theorem swap_error_ne_reentrancy (ora : Engine.SwapOracle) (router : Engine.Addr)
    (st : Engine.EngineState) (tokenIn tokenOut : Engine.Addr)
    (amountIn fee : Nat) (e : Engine.EngineError)
    (h : Engine.swapUniswapV3 ora router st tokenIn tokenOut amountIn fee
           = Except.error e) :
    e ≠ Engine.EngineError.ReentrancyBlocked := by
  unfold Engine.swapUniswapV3 at h
  split at h
  · injection h with h'
    subst h'
    decide
  · split at h
    · exact Except.noConfusion h
    · injection h with h'
      subst h'
      decide

/-- The profit reported by a successful `_executeArbitrage` run is the
conditional difference of the end and start balances of `tokenIn`. -/
theorem executeArbitrage_ok_profit (ora : Engine.SwapOracle)
    (router : Engine.Addr) (st : Engine.EngineState)
    (p : Engine.ArbitrageParams) (amount : Nat)
    (st1 : Engine.EngineState) (pr : Nat)
    (h : Engine.executeArbitrage ora router st p amount = Except.ok (st1, pr)) :
    pr = if Engine.getBal st.balances p.tokenIn < Engine.getBal st1.balances p.tokenIn
         then Engine.getBal st1.balances p.tokenIn - Engine.getBal st.balances p.tokenIn
         else 0 := by
  unfold Engine.executeArbitrage at h
  split at h
  · exact Except.noConfusion h
  · split at h
    · exact Except.noConfusion h
    · injection h with h'
      injection h' with h1 h2
      subst h1
      exact h2.symm

/-- `_executeArbitrage` can only fail with `SwapFailed`, propagated from one
of its two swaps. -/
theorem arbitrage_error_ne_reentrancy (ora : Engine.SwapOracle)
    (router : Engine.Addr) (st : Engine.EngineState)
    (p : Engine.ArbitrageParams) (amount : Nat) (e : Engine.EngineError)
    (h : Engine.executeArbitrage ora router st p amount = Except.error e) :
    e ≠ Engine.EngineError.ReentrancyBlocked := by
  unfold Engine.executeArbitrage at h
  split at h
  case h_1 e1 heq1 =>
    injection h with h'
    subst h'
    exact swap_error_ne_reentrancy _ _ _ _ _ _ _ _ heq1
  case h_2 st1 firstSwapOut heq1 =>
    split at h
    case h_1 e2 heq2 =>
      injection h with h'
      subst h'
      split at heq2
      · exact Except.noConfusion heq2
      · exact swap_error_ne_reentrancy _ _ _ _ _ _ _ _ heq2
    case h_2 st2 secondOut heq2 =>
      exact Except.noConfusion h

/-- C2 (amended): the ReentrancyGuard sits on the entry point
`executeFlashLoanArbitrage`, which rejects re-entrant invocation while the
guard is set; the loan callback `executeOperation` itself performs only the
facility-caller and initiator checks and never rejects with
`ReentrancyBlocked`, so a re-entrant invocation of the callback that
satisfies those checks is not blocked by the engine. -/
theorem reentrancy_guard_on_entry_only :
    (∀ (ora : Engine.SwapOracle) (router pool thisAddr owner : Engine.Addr)
        (st : Engine.EngineState) (gasPrice : Nat) (asset : Engine.Addr)
        (amount premium : Nat) (p : Engine.ArbitrageParams),
        st.entered = true →
        Engine.executeFlashLoanArbitrage ora router pool thisAddr owner st owner
            gasPrice asset amount premium p
          = Except.error Engine.EngineError.ReentrancyBlocked) ∧
    (∀ (ora : Engine.SwapOracle) (router pool thisAddr : Engine.Addr)
        (st : Engine.EngineState) (msgSender asset : Engine.Addr)
        (amount premium : Nat) (initiator : Engine.Addr)
        (p : Engine.ArbitrageParams),
        Engine.executeOperation ora router pool thisAddr st msgSender asset
            amount premium initiator p
          ≠ Except.error Engine.EngineError.ReentrancyBlocked) := by
  constructor
  · intro ora router pool thisAddr owner st gasPrice asset amount premium p h
    unfold Engine.executeFlashLoanArbitrage
    rw [if_pos rfl, h]
    rfl
  · intro ora router pool thisAddr st msgSender asset amount premium initiator p
    unfold Engine.executeOperation
    split
    · split
      · split
        case h_1 e heq =>
          intro hc
          injection hc with h'
          exact arbitrage_error_ne_reentrancy _ _ _ _ _ _ heq h'
        case h_2 st1 profit heq =>
          split
          · split
            · exact fun hc => Except.noConfusion hc
            · intro hc
              injection hc with h'
              exact Engine.EngineError.noConfusion h'
          · intro hc
            injection hc with h'
            exact Engine.EngineError.noConfusion h'
      · intro hc
        injection hc with h'
        exact Engine.EngineError.noConfusion h'
    · intro hc
      injection hc with h'
      exact Engine.EngineError.noConfusion h'

/-- C2 witness: re-entrant invocation of the guarded entry point is
rejected. -/
theorem reentrancy_guard_on_entry_only_witness :
    Fixtures.stEntered.entered = true ∧
    Engine.executeFlashLoanArbitrage Fixtures.oraProfitable 1 2 3 7
        Fixtures.stEntered 7 0 10 100 1 Fixtures.pW
      = Except.error Engine.EngineError.ReentrancyBlocked :=
  ⟨rfl, reentrancy_guard_on_entry_only.1 Fixtures.oraProfitable 1 2 3 7
      Fixtures.stEntered 0 10 100 1 Fixtures.pW rfl⟩

/-- C2 counterexample: with the reentrancy guard set (an `executeOperation`
already in progress on this instance), a further invocation of
`executeOperation` from the lending facility with the engine as initiator is
not rejected with `ReentrancyBlocked` — it succeeds outright, contradicting
the claim that re-entrant invocations of the callback are rejected. -/
theorem reentrancy_unguarded_callback_cex :
    Engine.resultOk (Engine.executeOperation Fixtures.oraProfitable 1 2 3
        Fixtures.stEnteredLoan 2 10 100 1 3 Fixtures.pW) = true ∧
    Engine.executeOperation Fixtures.oraProfitable 1 2 3
        Fixtures.stEnteredLoan 2 10 100 1 3 Fixtures.pW
      ≠ Except.error Engine.EngineError.ReentrancyBlocked := by
  constructor
  · decide
  · decide

/-- C3 (amended): for a callback invocation that passes the caller and
initiator checks, the profit is `max(0, postBalance − preBalance)` over the
`tokenIn` balances; the engine then requires `postBalance ≥ amount + premium`
first — failing with `InsufficientRepayment` when it does not hold, whatever
the profit — and only then requires `profit > 0`, failing with
`UnprofitableTrade`; so an attempt with profit 0 fails with
`UnprofitableTrade` exactly when the repayment check passes, and with
`InsufficientRepayment` otherwise. -/
theorem execute_operation_check_order (ora : Engine.SwapOracle)
    (router pool thisAddr : Engine.Addr) (st : Engine.EngineState)
    (asset : Engine.Addr) (amount premium : Nat) (p : Engine.ArbitrageParams)
    (st1 : Engine.EngineState) (pr : Nat)
    (hrun : Engine.executeArbitrage ora router st p amount = Except.ok (st1, pr)) :
    ((pr : Int) = max 0 ((Engine.getBal st1.balances p.tokenIn : Int)
        - (Engine.getBal st.balances p.tokenIn : Int))) ∧
    (Engine.getBal st1.balances asset < amount + premium →
      Engine.executeOperation ora router pool thisAddr st pool asset amount
          premium thisAddr p
        = Except.error Engine.EngineError.InsufficientRepayment) ∧
    (amount + premium ≤ Engine.getBal st1.balances asset → pr = 0 →
      Engine.executeOperation ora router pool thisAddr st pool asset amount
          premium thisAddr p
        = Except.error Engine.EngineError.UnprofitableTrade) := by
  have hpr := executeArbitrage_ok_profit ora router st p amount st1 pr hrun
  refine ⟨?_, ?_, ?_⟩
  · rcases Nat.lt_or_ge (Engine.getBal st.balances p.tokenIn)
        (Engine.getBal st1.balances p.tokenIn) with hc | hc
    · rw [if_pos hc] at hpr
      rw [max_eq_right (by omega : (0 : Int) ≤ _)]
      omega
    · rw [if_neg (Nat.not_lt.mpr hc)] at hpr
      rw [max_eq_left (by omega : _ ≤ (0 : Int))]
      omega
  · intro hbal
    unfold Engine.executeOperation
    rw [if_pos rfl, if_pos rfl, hrun]
    dsimp only
    rw [if_neg (Nat.not_le.mpr hbal)]
  · intro hbal hzero
    unfold Engine.executeOperation
    rw [if_pos rfl, if_pos rfl, hrun]
    dsimp only
    rw [if_pos hbal, if_neg (by omega : ¬ 0 < pr)]

/-- C3 counterexample: a callback invocation that passes the caller and
initiator checks, whose swaps break even (profit 0) and whose end balance of
the asset (100) cannot cover `amount + premium` (101), fails with
`InsufficientRepayment` — not with `UnprofitableTrade` as the claim requires
of every attempt with profit ≤ 0 — because the source checks repayment
sufficiency before profitability. -/
theorem repayment_check_precedes_profit_cex :
    Engine.executeOperation Fixtures.oraBreakEven 1 2 3 Fixtures.stLoanOnly
        2 10 100 1 3 Fixtures.pW
      = Except.error Engine.EngineError.InsufficientRepayment ∧
    (Except.error Engine.EngineError.InsufficientRepayment :
        Except Engine.EngineError (Engine.EngineState × Nat))
      ≠ Except.error Engine.EngineError.UnprofitableTrade := by
  constructor
  · decide
  · decide

/-- C3 witness: the three parts of `execute_operation_check_order` at
concrete break-even runs — one whose end balance 100 misses the debt 101 and
fails with `InsufficientRepayment`, one holding 60 extra units whose end
balance 160 covers the debt and fails with `UnprofitableTrade`. -/
theorem execute_operation_check_order_witness :
    ((0 : Int) = max 0 ((Engine.getBal Fixtures.stAfterLoanOnly.balances
        Fixtures.pW.tokenIn : Int)
        - (Engine.getBal Fixtures.stLoanOnly.balances Fixtures.pW.tokenIn : Int))) ∧
    Engine.executeOperation Fixtures.oraBreakEven 1 2 3 Fixtures.stLoanOnly
        2 10 100 1 3 Fixtures.pW
      = Except.error Engine.EngineError.InsufficientRepayment ∧
    Engine.executeOperation Fixtures.oraBreakEven 1 2 3 Fixtures.stExtra
        2 10 100 1 3 Fixtures.pW
      = Except.error Engine.EngineError.UnprofitableTrade :=
  ⟨(execute_operation_check_order Fixtures.oraBreakEven 1 2 3 Fixtures.stLoanOnly
      10 100 1 Fixtures.pW Fixtures.stAfterLoanOnly 0 (by decide)).1,
   (execute_operation_check_order Fixtures.oraBreakEven 1 2 3 Fixtures.stLoanOnly
      10 100 1 Fixtures.pW Fixtures.stAfterLoanOnly 0 (by decide)).2.1 (by decide),
   (execute_operation_check_order Fixtures.oraBreakEven 1 2 3 Fixtures.stExtra
      10 100 1 Fixtures.pW Fixtures.stAfterExtra 0 (by decide)).2.2 (by decide) rfl⟩

/-- C6: among candidates passing every price-validity check, retention holds
exactly when the price delta lies strictly inside the `(1, 10)` percent
window and both liquidities strictly exceed the 100-dollar floor; at the
boundaries, a delta of exactly 1 percent (prices 201/199) or exactly 10
percent (21/19) or 12 percent (212/188) is excluded, a delta of 5 percent
with liquidity 101 is included, and liquidity exactly 100 is excluded. -/
theorem scanner_retention_window :
    (∀ (p1 p2 l1 l2 : ℚ), Server.priceValid p1 p2 = true →
        (Server.considerPair (some p1) (some p2) (some l1) (some l2) = true ↔
          (Server.scannerLowerBoundPercent < Server.priceDiffPercent p1 p2 ∧
           Server.priceDiffPercent p1 p2 < Server.scannerUpperBoundPercent ∧
           Server.minLiquidity < l1 ∧ Server.minLiquidity < l2))) ∧
    Server.considerPair (some 201) (some 199) (some 101) (some 101) = false ∧
    Server.considerPair (some 205) (some 195) (some 101) (some 101) = true ∧
    Server.considerPair (some 21) (some 19) (some 101) (some 101) = false ∧
    Server.considerPair (some 212) (some 188) (some 101) (some 101) = false ∧
    Server.considerPair (some 205) (some 195) (some 100) (some 101) = false := by
  refine ⟨?_, ?_, ?_, ?_, ?_, ?_⟩
  · intro p1 p2 l1 l2 hv
    unfold Server.priceValid at hv
    simp only [Bool.and_eq_true, decide_eq_true_eq] at hv
    obtain ⟨⟨⟨⟨h1, h2⟩, h3⟩, h4⟩, hr⟩ := hv
    have hc : (decide ((0 : ℚ) < p1) && decide ((0 : ℚ) < p2) &&
        decide (p1 ≤ 1000000) && decide (p2 ≤ 1000000) &&
        decide ((1 : ℚ) / 1000000 ≤ p1) && decide ((1 : ℚ) / 1000000 ≤ p2)) = true := by
      simp only [Bool.and_eq_true, decide_eq_true_eq]
      refine ⟨⟨⟨⟨⟨?_, ?_⟩, ?_⟩, ?_⟩, ?_⟩, ?_⟩
      · linarith
      · linarith
      · linarith
      · linarith
      · linarith
      · linarith
    simp only [Server.considerPair, hc, if_true, Server.retainCondition,
      Server.liqAbove, Bool.and_eq_true, decide_eq_true_eq]
    constructor
    · rintro ⟨⟨⟨⟨⟨⟨⟨⟨hw1, hw2⟩, hl1⟩, hl2⟩, _⟩, _⟩, _⟩, _⟩, _⟩
      exact ⟨hw1, hw2, hl1, hl2⟩
    · rintro ⟨hw1, hw2, hl1, hl2⟩
      exact ⟨⟨⟨⟨⟨⟨⟨⟨hw1, hw2⟩, hl1⟩, hl2⟩, h1⟩, h2⟩, h3⟩, h4⟩, hr⟩
  · norm_num [Server.considerPair, Server.retainCondition, Server.priceDiffPercent,
      Server.absQ, Server.ratioBounded, Server.liqAbove, Server.minLiquidity,
      Server.scannerLowerBoundPercent, Server.scannerUpperBoundPercent]
  · norm_num [Server.considerPair, Server.retainCondition, Server.priceDiffPercent,
      Server.absQ, Server.ratioBounded, Server.liqAbove, Server.minLiquidity,
      Server.scannerLowerBoundPercent, Server.scannerUpperBoundPercent]
  · norm_num [Server.considerPair, Server.retainCondition, Server.priceDiffPercent,
      Server.absQ, Server.ratioBounded, Server.liqAbove, Server.minLiquidity,
      Server.scannerLowerBoundPercent, Server.scannerUpperBoundPercent]
  · norm_num [Server.considerPair, Server.retainCondition, Server.priceDiffPercent,
      Server.absQ, Server.ratioBounded, Server.liqAbove, Server.minLiquidity,
      Server.scannerLowerBoundPercent, Server.scannerUpperBoundPercent]
  · norm_num [Server.considerPair, Server.retainCondition, Server.priceDiffPercent,
      Server.absQ, Server.ratioBounded, Server.liqAbove, Server.minLiquidity,
      Server.scannerLowerBoundPercent, Server.scannerUpperBoundPercent]

/-- C6 witness: the retention equivalence at the concrete valid candidate
with prices 205/195 (delta 5 percent) and liquidities 101. -/
theorem scanner_retention_window_witness :
    Server.priceValid 205 195 = true ∧
    (Server.considerPair (some 205) (some 195) (some 101) (some 101) = true ↔
      (Server.scannerLowerBoundPercent < Server.priceDiffPercent 205 195 ∧
       Server.priceDiffPercent 205 195 < Server.scannerUpperBoundPercent ∧
       Server.minLiquidity < 101 ∧ Server.minLiquidity < 101)) :=
  ⟨by norm_num [Server.priceValid, Server.ratioBounded],
   scanner_retention_window.1 205 195 101 101
     (by norm_num [Server.priceValid, Server.ratioBounded])⟩

/-- C4 (amended): with `testAmount > 0` and a strictly positive
`minProfitBasisPoints` (its deployed value is 50), the flag returned by
`calculateArbitrageOpportunity` equals the spec formula
`(quoteBack − testAmount) × 10000 / testAmount ≥ minProfitBasisPoints`, the
expected profit is `quoteBack − testAmount` (truncated at 0), and the
recommended amount is `testAmount` exactly when the round trip gained; when
`minProfitBasisPoints = 0` the formula and the code disagree at
`quoteBack = testAmount` (see the counterexample). -/
theorem quote_profitability_formula (ora : Engine.SwapOracle)
    (st : Engine.EngineState) (tokenA tokenB fee1 fee2 testAmount : Nat)
    (h1 : 0 < testAmount) (h2 : 0 < st.minProfitBasisPoints) :
    Engine.calculateArbitrageOpportunity ora st tokenA tokenB fee1 fee2 testAmount
      = Except.ok
          (Engine.specProfitable
             (Engine.getUniswapQuote ora tokenB tokenA
               (Engine.getUniswapQuote ora tokenA tokenB testAmount fee1) fee2)
             testAmount st.minProfitBasisPoints,
           Engine.getUniswapQuote ora tokenB tokenA
               (Engine.getUniswapQuote ora tokenA tokenB testAmount fee1) fee2
             - testAmount,
           if testAmount < Engine.getUniswapQuote ora tokenB tokenA
               (Engine.getUniswapQuote ora tokenA tokenB testAmount fee1) fee2
           then testAmount else 0) := by
  set q2 := Engine.getUniswapQuote ora tokenB tokenA
    (Engine.getUniswapQuote ora tokenA tokenB testAmount fee1) fee2 with hq2
  have ht0 : (0 : Int) < (testAmount : Int) := by exact_mod_cast h1
  unfold Engine.calculateArbitrageOpportunity
  simp only [← hq2]
  by_cases h : testAmount < q2
  · rw [if_pos h, if_neg (by omega : ¬ testAmount = 0), if_pos h]
    have hcast : ((q2 : Int) - (testAmount : Int)) * 10000 / (testAmount : Int)
        = (((q2 - testAmount) * 10000 / testAmount : Nat) : Int) := by
      push_cast [Nat.le_of_lt h]
      rfl
    have hbool : decide (st.minProfitBasisPoints ≤ (q2 - testAmount) * 10000 / testAmount)
        = Engine.specProfitable q2 testAmount st.minProfitBasisPoints := by
      unfold Engine.specProfitable
      rw [decide_eq_decide, hcast]
      exact_mod_cast Iff.rfl
    rw [hbool]
  · rw [if_neg h]
    have hle : q2 ≤ testAmount := Nat.not_lt.mp h
    have hnum : ((q2 : Int) - (testAmount : Int)) * 10000 ≤ 0 := by
      have : ((q2 : Int) - (testAmount : Int)) ≤ 0 := by
        have : (q2 : Int) ≤ (testAmount : Int) := by exact_mod_cast hle
        omega
      nlinarith
    have hdiv : ((q2 : Int) - (testAmount : Int)) * 10000 / (testAmount : Int) ≤ 0 := by
      have := Int.ediv_le_ediv ht0 hnum
      simpa using this
    have hspec : Engine.specProfitable q2 testAmount st.minProfitBasisPoints = false := by
      unfold Engine.specProfitable
      rw [decide_eq_false_iff_not]
      intro hcontra
      have : (0 : Int) < st.minProfitBasisPoints := by exact_mod_cast h2
      omega
    rw [hspec, Nat.sub_eq_zero_of_le hle, if_neg h]

/-- C4 witness: the spec's worked example — test amount 1000, first leg
quoting 1050, second leg quoting 1060, `minProfitBasisPoints = 50` — yields
`profitable = true` and `expectedProfit = 60`. -/
theorem quote_profitability_formula_witness :
    0 < 1000 ∧ 0 < Engine.initEngineState.minProfitBasisPoints ∧
    Engine.calculateArbitrageOpportunity Fixtures.quoterRoundTrip
        Engine.initEngineState 10 20 3000 500 1000
      = Except.ok (true, 60, 1000) := by
  refine ⟨by decide, by decide, ?_⟩
  have h := quote_profitability_formula Fixtures.quoterRoundTrip
    Engine.initEngineState 10 20 3000 500 1000 (by decide) (by decide)
  exact h.trans (by decide)

/-- C4 counterexample: `minProfitBasisPoints` can be set to 0 through
`updateSettings` (which the source leaves unbounded); then a round trip
returning exactly the test amount (`quoteBack = testAmount = 1000`) makes
the code return `profitable = false` while the claimed formula
`(quoteBack − testAmount) × 10000 / testAmount ≥ minProfitBasisPoints`
evaluates to `0 ≥ 0`, i.e. true — so the claimed equality fails at this
input. -/
theorem quote_profitability_formula_cex :
    Engine.updateSettings 7 7 Engine.initEngineState 0 0 0
      = Except.ok Fixtures.zeroMinState ∧
    Engine.calculateArbitrageOpportunity Fixtures.quoterFlat
        Fixtures.zeroMinState 10 20 3000 500 1000
      = Except.ok (false, 0, 0) ∧
    Engine.specProfitable 1000 1000 Fixtures.zeroMinState.minProfitBasisPoints
      = true := by
  refine ⟨by decide, by decide, by decide⟩

/-- Inversion of a successful `executeFlashLoanArbitrage`: the guards passed,
`_executeArbitrage` ran on the post-loan state `preSwap st asset amount` and
returned exactly the profit the attempt reports, and that profit passed the
`profit > 0` check. -/
theorem executeFlashLoanArbitrage_ok_inv (ora : Engine.SwapOracle)
    (router pool thisAddr owner : Engine.Addr) (st : Engine.EngineState)
    (msgSender : Engine.Addr) (gasPrice : Nat) (asset : Engine.Addr)
    (amount premium : Nat) (p : Engine.ArbitrageParams)
    (st' : Engine.EngineState) (pr : Nat)
    (h : Engine.executeFlashLoanArbitrage ora router pool thisAddr owner st
           msgSender gasPrice asset amount premium p = Except.ok (st', pr)) :
    0 < pr ∧ ∃ st1, Engine.executeArbitrage ora router
        (Engine.preSwap st asset amount) p amount = Except.ok (st1, pr) := by
  unfold Engine.executeFlashLoanArbitrage at h
  split at h
  case isFalse => exact Except.noConfusion h
  case isTrue hown =>
    split at h
    case isTrue hent => exact Except.noConfusion h
    case isFalse hent =>
      split at h
      case isFalse hgas => exact Except.noConfusion h
      case isTrue hgas =>
        split at h
        case h_1 e heqF => exact Except.noConfusion h
        case h_2 stX prX heqF =>
          injection h with h'
          injection h' with hst hpr
          subst hpr
          unfold Engine.flashLoanSimple at heqF
          split at heqF
          case h_1 e heqO => exact Except.noConfusion heqF
          case h_2 stY prY heqO =>
            split at heqF
            case isFalse => exact Except.noConfusion heqF
            case isTrue hpull =>
              injection heqF with h''
              injection h'' with hst2 hpr2
              subst hpr2
              unfold Engine.executeOperation at heqO
              rw [if_pos rfl, if_pos rfl] at heqO
              split at heqO
              case h_1 e heqA => exact Except.noConfusion heqO
              case h_2 st1 profit heqA =>
                split at heqO
                case isFalse => exact Except.noConfusion heqO
                case isTrue hbal =>
                  split at heqO
                  case isFalse => exact Except.noConfusion heqO
                  case isTrue hprof =>
                    injection heqO with h3
                    injection h3 with hst3 hpr3
                    subst hpr3
                    exact ⟨hprof, st1, heqA⟩

/-- C1: an execution attempt (`executeFlashLoanArbitrage` plus the pool's
`executeOperation` callback, run as one atomic ledger unit) that succeeds
with profit `pr` has `pr > 0`, and the borrowed asset's post-swap balance
equals its recorded pre-trade balance (the balance just after the loan
landed, `preSwap st asset amount`) plus `pr`; and an attempt whose swaps
complete with computed profit 0 (the code's value for profit ≤ 0) aborts
with the post-state identical to the pre-state `st` — loan, swaps and
approvals all undone. -/
theorem flash_loan_atomicity (ora : Engine.SwapOracle)
    (router pool thisAddr owner : Engine.Addr) (st : Engine.EngineState)
    (msgSender : Engine.Addr) (gasPrice : Nat) (asset : Engine.Addr)
    (amount premium : Nat) (p : Engine.ArbitrageParams)
    (hAsset : asset = p.tokenIn) :
    (∀ (st' : Engine.EngineState) (pr : Nat),
        Engine.attempt ora router pool thisAddr owner st msgSender gasPrice
            asset amount premium p = (st', Except.ok pr) →
        0 < pr ∧
        Engine.arbProfit ora router (Engine.preSwap st asset amount) p amount = pr ∧
        Engine.arbEndBal ora router (Engine.preSwap st asset amount) p amount asset
          = Engine.getBal (Engine.preSwap st asset amount).balances asset + pr) ∧
    (∀ (st2 : Engine.EngineState),
        Engine.executeArbitrage ora router (Engine.preSwap st asset amount) p amount
          = Except.ok (st2, 0) →
        (Engine.attempt ora router pool thisAddr owner st msgSender gasPrice
            asset amount premium p).1 = st ∧
        Engine.resultOk (Engine.attempt ora router pool thisAddr owner st
            msgSender gasPrice asset amount premium p).2 = false) := by
  subst hAsset
  constructor
  · intro st' pr h
    have hF : Engine.executeFlashLoanArbitrage ora router pool thisAddr owner st
        msgSender gasPrice p.tokenIn amount premium p = Except.ok (st', pr) := by
      unfold Engine.attempt at h
      split at h
      case h_1 stX prX heq =>
        injection h with hA hB
        injection hB with hB'
        rw [← hA, ← hB']
        exact heq
      case h_2 e heq =>
        injection h with hA hB
        exact Except.noConfusion hB
    obtain ⟨hpos, st1, harb⟩ := executeFlashLoanArbitrage_ok_inv ora router pool
      thisAddr owner st msgSender gasPrice p.tokenIn amount premium p st' pr hF
    refine ⟨hpos, ?_, ?_⟩
    · unfold Engine.arbProfit
      rw [harb]
    · unfold Engine.arbEndBal
      rw [harb]
      dsimp only
      have hpr := executeArbitrage_ok_profit ora router
        (Engine.preSwap st p.tokenIn amount) p amount st1 pr harb
      rcases Nat.lt_or_ge
          (Engine.getBal (Engine.preSwap st p.tokenIn amount).balances p.tokenIn)
          (Engine.getBal st1.balances p.tokenIn) with hc | hc
      · rw [if_pos hc] at hpr
        omega
      · rw [if_neg (Nat.not_lt.mpr hc)] at hpr
        omega
  · intro st2 h0
    unfold Engine.attempt
    split
    case h_1 stX prX heq =>
      exfalso
      obtain ⟨hpos, st1, harb⟩ := executeFlashLoanArbitrage_ok_inv ora router pool
        thisAddr owner st msgSender gasPrice p.tokenIn amount premium p stX prX heq
      rw [h0] at harb
      injection harb with h'
      injection h' with hst hpr
      omega
    case h_2 e heq =>
      exact ⟨rfl, rfl⟩

/-- C1 witness: under `oraProfitable` an attempt from `stHeld` (5 pre-held
units plus the 100-unit loan) succeeds with profit 50 and the post-swap
balance 155 equals the post-loan balance 105 plus 50; under `oraBreakEven`
the swaps complete with profit 0 and the attempt aborts with the pre-state
returned untouched. -/
theorem flash_loan_atomicity_witness :
    (0 < 50 ∧
     Engine.arbProfit Fixtures.oraProfitable 1
        (Engine.preSwap Fixtures.stHeld 10 100) Fixtures.pW 100 = 50 ∧
     Engine.arbEndBal Fixtures.oraProfitable 1
        (Engine.preSwap Fixtures.stHeld 10 100) Fixtures.pW 100 10
       = Engine.getBal (Engine.preSwap Fixtures.stHeld 10 100).balances 10 + 50) ∧
    ((Engine.attempt Fixtures.oraBreakEven 1 2 3 4 Engine.initEngineState 4 0
        10 100 1 Fixtures.pW).1 = Engine.initEngineState ∧
     Engine.resultOk (Engine.attempt Fixtures.oraBreakEven 1 2 3 4
        Engine.initEngineState 4 0 10 100 1 Fixtures.pW).2 = false) :=
  ⟨(flash_loan_atomicity Fixtures.oraProfitable 1 2 3 4 Fixtures.stHeld 4 0
      10 100 1 Fixtures.pW rfl).1
      (Engine.attempt Fixtures.oraProfitable 1 2 3 4 Fixtures.stHeld 4 0
        10 100 1 Fixtures.pW).1 50 (by decide),
   (flash_loan_atomicity Fixtures.oraBreakEven 1 2 3 4 Engine.initEngineState 4 0
      10 100 1 Fixtures.pW rfl).2 Fixtures.stBreakEvenAfter (by decide)⟩
